import Mathlib

/-!
A shallow embedding of `src/cdfwriter/interface.py` (class `CDFWriter`), the
buffered CDF-writer session, together with theorems settling the frozen claims
about its specification.

Modelling conventions:
* Python exceptions are values of `PyErr`; a method that can raise returns
  `Except PyErr _` or carries an `Except` outcome next to the mutated state
  (Python mutates `self` in place before a raise, so operations that mutate
  and then may raise return the mutated state together with the outcome).
* Python dicts (`_data`, `_variable_attrs`, ...) are association lists with
  in-place update (`setKey`) and lookup (`getKey`), preserving insertion order
  exactly as `dict` / `OrderedDict` do.
* `datetime.datetime` values are `PyDateTime` records at second resolution;
  subtraction goes through `toSeconds` (proleptic-Gregorian day count, the
  same arithmetic `datetime.__sub__` performs). `datetime.timedelta` values
  are whole numbers of seconds (`Int`); `timedelta(hours=6)` is `21600`.
* The filesystem is the list of existing paths; `os.path.exists` is list
  membership, `os.rename` removes the source and appends the destination,
  `os.unlink` removes a path.
* The pycdf backend handle `_cdf` only receives writes; the embedding records
  whether `_writeData` (the Write Pipeline) ran as a boolean instead of
  modelling the backend file contents.
* Strings are modelled as their ASCII content: `str.isdigit` is "nonempty and
  every character is one of 0-9" (Unicode digit categories are not modelled;
  every string the claims touch is ASCII).
-/

/-- Python exception kinds raised (or process abort performed) by the code
under study. -/
inductive PyErr where
  | typeError
  | valueError
  | runtimeError
  | indexError
  | assertionError
  | attributeError
  | processAbort
deriving DecidableEq, Repr

/-- The pycdf data-type constants mentioned by the source, plus the other
common CDF type constants so that "a type outside the fill-value table" is
expressible. -/
inductive CDFType where
  | CDF_DOUBLE
  | CDF_FLOAT
  | CDF_UINT1
  | CDF_UINT2
  | CDF_INT4
  | CDF_UINT4
  | CDF_INT1
  | CDF_INT2
  | CDF_INT8
  | CDF_BYTE
  | CDF_CHAR
  | CDF_UCHAR
  | CDF_REAL4
  | CDF_REAL8
  | CDF_EPOCH
  | CDF_EPOCH16
  | CDF_TIME_TT2000
deriving DecidableEq, Repr

/-- A naive `datetime.datetime` at second resolution. -/
structure PyDateTime where
  year : Nat
  month : Nat
  day : Nat
  hour : Nat
  minute : Nat
  second : Nat
deriving DecidableEq, Repr

/-- Days since 1970-01-01 in the proleptic Gregorian calendar (the ordinal
arithmetic `datetime.date` uses, shifted to the Unix epoch). -/
def daysFromCivil (y m d : Nat) : Int :=
  let yy : Int := if m ≤ 2 then (y : Int) - 1 else (y : Int)
  let era : Int := yy / 400
  let yoe : Int := yy - era * 400
  let mp : Int := ((m : Int) + 9) % 12
  let doy : Int := (153 * mp + 2) / 5 + (d : Int) - 1
  let doe : Int := yoe * 365 + yoe / 4 - yoe / 100 + doy
  era * 146097 + doe - 719468

/-- Absolute time in seconds, so that `datetime` subtraction is `Int`
subtraction of this value. -/
def PyDateTime.toSeconds (t : PyDateTime) : Int :=
  86400 * daysFromCivil t.year t.month t.day
    + 3600 * (t.hour : Int) + 60 * (t.minute : Int) + (t.second : Int)

/-- `a - b` for two datetimes, as a `timedelta` in whole seconds. -/
def dtSub (a b : PyDateTime) : Int :=
  a.toSeconds - b.toSeconds

/-- Left-pad the decimal rendering of `n` with zeros to `width` characters
(what `strftime`'s numeric directives do). -/
def padZ (width n : Nat) : String :=
  let s := toString n
  String.mk (List.replicate (width - s.length) '0') ++ s

/-- `t.strftime("%Y%m%d%H%M00")`: the timestamp stem used by `close`. -/
def strftimeYmdHM00 (t : PyDateTime) : String :=
  padZ 4 t.year ++ padZ 2 t.month ++ padZ 2 t.day ++
    padZ 2 t.hour ++ padZ 2 t.minute ++ "00"

/-- Python runtime values that flow through the writer: attribute values,
data payloads, and timestamps.  `pyNone` is Python's `None`. -/
inductive PyVal where
  | str (s : String)
  | int (n : Int)
  | float (q : ℚ)
  | time (t : PyDateTime)
  | list (elems : List PyVal)
  | pyNone

/-- Ordered-dict update: replace the value at the first occurrence of the key
(keys are unique in lists built by `setKey`), else append the pair. -/
def setKey {α : Type} : List (String × α) → String → α → List (String × α)
  | [], k, v => [(k, v)]
  | (k', v') :: rest, k, v =>
      if k' = k then (k, v) :: rest else (k', v') :: setKey rest k v

/-- Ordered-dict lookup. -/
def getKey {α : Type} : List (String × α) → String → Option α
  | [], _ => Option.none
  | (k', v') :: rest, k => if k' = k then some v' else getKey rest k

/-- A `_variables` catalog entry, the dict built by `addVariable`. -/
structure VarDecl where
  name : String
  dataType : CDFType
  sizes : Option (List Nat)
  dimVariances : Option (List Bool)
  variance : Bool
  num_elements : Nat
  compression : Nat
  compression_param : Nat

/-- A `_constants` catalog entry, the dict built by `addConstant`. -/
structure ConstDecl where
  name : String
  dataType : CDFType
  sizes : List Nat

/-- The mutable state of a `CDFWriter` instance.  Field names follow the
source attributes; `_prefix` is renamed `prefixStr`. -/
structure CDFWriter where
  prefixStr : String
  outputDirectory : String
  cdf_temp_name : String
  last_cdf_filename : Option String
  version : String
  doNotSplit : Bool
  boundary : Int
  variableList : List VarDecl
  constants : List ConstDecl
  global_attrs : List (String × PyVal)
  variable_attrs : List (String × List (String × PyVal))
  firstTime : Option PyVal
  lastTime : Option PyVal
  data : List (String × PyVal)
  constantData : List (String × List PyVal)

/-- `s.endswith(suffix)` over character content (Lean's own `String.endsWith`
is not kernel-reducible). -/
def pyEndsWith (s suf : String) : Bool :=
  suf.data.isSuffixOf s.data

/-- `outputdir.endswith(('/', '\\'))` normalization done by `__init__`. -/
def normalizeDir (d : String) : String :=
  if pyEndsWith d "/" || pyEndsWith d "\\" then d else d ++ "/"

/-- The temporary filename `outputdir + '__tmp' + pid + '_' + rand + '.cdf'`. -/
def tempName (dir : String) (pid rand : Nat) : String :=
  dir ++ "__tmp" ++ toString pid ++ "_" ++ toString rand ++ ".cdf"

/-- `CDFWriter.__init__(prefix, outputdir)`: the freshly constructed session
state (the process id and the random suffix are parameters; the temporary
backend file this creates on disk is accounted for by the `fs` arguments of
the theorems). -/
def CDFWriter.init (pfx outputdir : String) (pid rand : Nat) : CDFWriter :=
  let dir := normalizeDir outputdir
  { prefixStr := pfx
    outputDirectory := dir
    cdf_temp_name := tempName dir pid rand
    last_cdf_filename := Option.none
    version := "0.0.0"
    doNotSplit := true
    boundary := 21600
    variableList := []
    constants := []
    global_attrs := []
    variable_attrs := []
    firstTime := Option.none
    lastTime := Option.none
    data := []
    constantData := [] }

/-- `addGlobalAttribute(name, value)` (the `isinstance(name, str)` guard is
discharged by typing). -/
def addGlobalAttribute (w : CDFWriter) (name : String) (value : PyVal) : CDFWriter :=
  { w with global_attrs := setKey w.global_attrs name value }

/-- `addVariableAttribute(attribute_name, variable_name, value)`: lazily
creates the owner's ordered attribute map, then stores with overwrite. -/
def addVariableAttribute (w : CDFWriter) (attribute_name variable_name : String)
    (value : PyVal) : CDFWriter :=
  let cur := (getKey w.variable_attrs variable_name).getD []
  { w with variable_attrs :=
      setKey w.variable_attrs variable_name (setKey cur attribute_name value) }

/-- Lookup of one variable-scope attribute value. -/
def varAttr (w : CDFWriter) (variable_name attribute_name : String) : Option PyVal :=
  (getKey w.variable_attrs variable_name).bind fun m => getKey m attribute_name

/-- `addVariable(...)`: appends a descriptor to the `_variables` catalog. -/
def addVariable (w : CDFWriter) (name : String) (dataType : CDFType)
    (sizes : Option (List Nat)) (dimVariances : Option (List Bool))
    (variance : Bool) (num_elements : Nat)
    (compression compression_param : Nat) : CDFWriter :=
  { w with variableList := w.variableList ++
      [{ name := name, dataType := dataType, sizes := sizes,
         dimVariances := dimVariances, variance := variance,
         num_elements := num_elements, compression := compression,
         compression_param := compression_param }] }

/-- `addConstant(name, dataType, sizes)`. -/
def addConstant (w : CDFWriter) (name : String) (dataType : CDFType)
    (sizes : List Nat) : CDFWriter :=
  { w with constants := w.constants ++
      [{ name := name, dataType := dataType, sizes := sizes }] }

/-- `addConstantData(constant_name, data)`. -/
def addConstantData (w : CDFWriter) (constant_name : String) (data : PyVal) :
    Except PyErr CDFWriter :=
  if (w.constants.map ConstDecl.name).contains constant_name then
    match getKey w.constantData constant_name with
    | Option.none =>
        .ok { w with constantData := setKey w.constantData constant_name [data] }
    | some l =>
        .ok { w with constantData := setKey w.constantData constant_name (l ++ [data]) }
  else
    .error .valueError

/-- `isinstance(data, (Sequence, np.ndarray))` normalization done for the
time variable: a list (or a string, which is a `Sequence` of its characters)
is taken elementwise, anything else becomes a one-element sequence. -/
def toTimes : PyVal → List PyVal
  | .list l => l
  | .str s => s.data.map fun c => .str (String.mk [c])
  | v => [v]

/-- The `variable_name == 'Epoch'` block of `addVariableData`: record
`times[0]` into `_firstTime` when it is `None`, and `times[-1]` into
`_lastTime`; indexing an empty sequence raises `IndexError`. -/
def epochUpdate (w : CDFWriter) (data : PyVal) : Except PyErr CDFWriter :=
  let times := toTimes data
  match (match w.firstTime with
         | Option.none =>
             match times.head? with
             | Option.none => Except.error PyErr.indexError
             | some t => Except.ok { w with firstTime := some t }
         | some _ => Except.ok w : Except PyErr CDFWriter) with
  | Except.error e => Except.error e
  | Except.ok w1 =>
      match times.getLast? with
      | Option.none => Except.error PyErr.indexError
      | some t => Except.ok { w1 with lastTime := some t }

/-- `addVariableData(variable_name, data, all_values)`.  The bulk branch
stores the payload itself after `assert variable_name not in self._data`;
the incremental branch wraps the first payload in a fresh list and otherwise
calls `.append`, which only exists on list payloads (appending after a bulk
array payload raises `AttributeError`). -/
def addVariableData (w : CDFWriter) (variable_name : String) (data : PyVal)
    (all_values : Bool) : Except PyErr CDFWriter := do
  if ¬ (w.variableList.map VarDecl.name).contains variable_name then
    Except.error PyErr.valueError
  else
    let w ← if variable_name = "Epoch" then epochUpdate w data else Except.ok w
    if all_values then
      match getKey w.data variable_name with
      | some _ => Except.error PyErr.assertionError
      | Option.none => Except.ok { w with data := setKey w.data variable_name data }
    else
      match getKey w.data variable_name with
      | Option.none =>
          Except.ok { w with data := setKey w.data variable_name (.list [data]) }
      | some (.list l) =>
          Except.ok { w with data := setKey w.data variable_name (.list (l ++ [data])) }
      | some _ => Except.error PyErr.attributeError

/-- `setVersionNumber(version)`: `version.split('.')` must have exactly three
components (`ValueError` otherwise), each passing `str.isdigit` (the source
raises `TypeError` otherwise, although its docstring promises `ValueError`
for any non-`n.n.n` format). -/
def setVersionNumber (w : CDFWriter) (version : String) : Except PyErr CDFWriter :=
  let versionNumbersList := (version.data.splitOn '.').map String.mk
  if versionNumbersList.length ≠ 3 then
    .error .valueError
  else if versionNumbersList.all (fun s => !s.data.isEmpty && s.data.all Char.isDigit) then
    .ok { w with version := version }
  else
    .error .typeError

/-- `setDoNotSplit(doNotSplit, boundary)` (boundary in seconds;
the Python default argument is `timedelta(hours=6)`, i.e. `21600`). -/
def setDoNotSplit (w : CDFWriter) (doNotSplit : Bool) (boundary : Int) : CDFWriter :=
  { w with doNotSplit := doNotSplit, boundary := boundary }

/-- `getLastCDFFilename()`. -/
def getLastCDFFilename (w : CDFWriter) : Option String :=
  w.last_cdf_filename

/-- The result of `close` / `makeNewFile`: the mutated session state, the
filesystem afterwards, whether the Write Pipeline (`_writeData`) ran, and
either the permanent filename or the exception that escaped.  Python mutates
`self` in place before a raise, so the state and filesystem reflect
everything done up to the raise. -/
structure CloseResult where
  st : CDFWriter
  fs : List String
  invokedPipeline : Bool
  outcome : Except PyErr String

/-- The tail of `close` after the filename has been computed: the optional
`_writeData` call, `self._cdf.close()`, the exists-check / rename / unlink
dance, and the buffer resets. -/
def closeRest (w : CDFWriter) (fs : List String) (new_filename : String) :
    CloseResult :=
  let invoked := !w.data.isEmpty
  let perm := w.outputDirectory ++ new_filename
  if perm ∈ fs then
    { st := w, fs := fs, invokedPipeline := invoked,
      outcome := .error .runtimeError }
  else
    let fs1 := (fs.erase w.cdf_temp_name) ++ [perm]
    if w.data.isEmpty then
      { st := { w with data := [], firstTime := Option.none, lastTime := Option.none },
        fs := fs1.erase perm, invokedPipeline := invoked,
        outcome := .ok new_filename }
    else
      { st := { w with last_cdf_filename := some new_filename,
                       data := [], firstTime := Option.none, lastTime := Option.none },
        fs := fs1, invokedPipeline := invoked,
        outcome := .ok new_filename }

/-- `close()`: inject the three unconditional global attributes, compute the
permanent filename (timestamped when `_firstTime` is set, in which case the
`Logical_file_id` attribute is also recorded; `strftime` on a non-datetime
`_firstTime` would raise `AttributeError`), then hand off to `closeRest`.
`today` stands for `datetime.datetime.now().strftime("%Y%m%d")`. -/
def close (w0 : CDFWriter) (fs : List String) (today : String) : CloseResult :=
  let w := addGlobalAttribute w0 "Generation_date" (.str today)
  let w := addGlobalAttribute w "Data_version" (.str ("v" ++ w.version))
  let w := addGlobalAttribute w "Logical_source" (.str w.prefixStr)
  match w.firstTime with
  | some (.time t) =>
      let stem := strftimeYmdHM00 t
      let w := addGlobalAttribute w "Logical_file_id" (.str (w.prefixStr ++ "_" ++ stem))
      closeRest w fs (w.prefixStr ++ "_" ++ stem ++ "_v" ++ w.version ++ ".cdf")
  | Option.none =>
      closeRest w fs (w.prefixStr ++ "_v" ++ w.version ++ ".cdf")
  | some _ =>
      { st := w, fs := fs, invokedPipeline := false,
        outcome := .error .attributeError }

/-- `makeNewFile()`: `close()` then a fresh temporary name and backend handle
(`pycdf.CDF(name, '')` creates the file, so the new temp path enters the
filesystem). An exception escaping `close` propagates. -/
def makeNewFile (w : CDFWriter) (fs : List String) (today : String)
    (pid rand : Nat) : CloseResult :=
  let r := close w fs today
  match r.outcome with
  | .error _ => r
  | .ok fname =>
      let temp := tempName r.st.outputDirectory pid rand
      { st := { r.st with cdf_temp_name := temp }, fs := r.fs ++ [temp],
        invokedPipeline := r.invokedPipeline, outcome := .ok fname }

/-- `self._lastTime - self._firstTime >= self._boundary` as evaluated by
`closeRecord`: defined only when both ends are datetimes; with an unset
(`None`) end the subtraction raises `TypeError`, and with non-datetime
payloads either the subtraction or the comparison against a `timedelta`
raises `TypeError` as well. -/
def spanAtLeast (lastT firstT : Option PyVal) (bound : Int) : Except PyErr Bool :=
  match lastT, firstT with
  | some (.time a), some (.time b) => .ok (dtSub a b ≥ bound)
  | _, _ => .error .typeError

/-- The result of `closeRecord`: state, filesystem, how many seal-and-reopen
cycles (`makeNewFile` calls) were triggered, and the outcome. -/
structure CloseRecordResult where
  st : CDFWriter
  fs : List String
  seals : Nat
  outcome : Except PyErr Unit

/-- `closeRecord()`: a no-op when `_doNotSplit` holds; otherwise evaluates
the time-span comparison and calls `makeNewFile` when the boundary is
reached. -/
def closeRecord (w : CDFWriter) (fs : List String) (today : String)
    (pid rand : Nat) : CloseRecordResult :=
  if w.doNotSplit then
    { st := w, fs := fs, seals := 0, outcome := .ok () }
  else
    match spanAtLeast w.lastTime w.firstTime w.boundary with
    | .error e => { st := w, fs := fs, seals := 0, outcome := .error e }
    | .ok true =>
        let r := makeNewFile w fs today pid rand
        { st := r.st, fs := r.fs, seals := 1,
          outcome := r.outcome.map fun _ => () }
    | .ok false => { st := w, fs := fs, seals := 0, outcome := .ok () }

/-- `addSupportVariableAttributes(...)`: the fixed support-variable metadata
set; a zero-length `units_string` is replaced by `"unitless"`. -/
def addSupportVariableAttributes (w : CDFWriter)
    (variable_name short_description long_description units_string
      format_string : String) (validmin validmax : PyVal)
    (lablaxis si_conversion scaleType : String) : CDFWriter :=
  let w := addVariableAttribute w "FIELDNAM" variable_name (.str short_description)
  let w := addVariableAttribute w "VALIDMIN" variable_name validmin
  let w := addVariableAttribute w "VALIDMAX" variable_name validmax
  let units_string := if units_string.length = 0 then "unitless" else units_string
  let w := addVariableAttribute w "UNITS" variable_name (.str units_string)
  let w := addVariableAttribute w "FORMAT" variable_name (.str format_string)
  let w := addVariableAttribute w "CATDESC" variable_name (.str long_description)
  let w := addVariableAttribute w "VAR_TYPE" variable_name (.str "support_data")
  let w := addVariableAttribute w "SI_CONVERSION" variable_name (.str si_conversion)
  let w := addVariableAttribute w "LABLAXIS" variable_name (.str lablaxis)
  addVariableAttribute w "SCALETYP" variable_name (.str scaleType)

/-- `addPlotVariableAttributes(...)`: the fixed plot-variable metadata set.
When `addFill` is requested, FILLVAL is chosen from the `elif` table keyed on
`dataType`; any other `dataType` value (including the default `None`) falls
into the `else` branch, which calls `os.abort()` — modelled as the
`processAbort` error, discarding the session (the process dies). -/
def addPlotVariableAttributes (w : CDFWriter)
    (variable_name short_description long_description display_type
      units_string format_string lablaxis : String)
    (dataType : Option CDFType) (validmin validmax : PyVal)
    (scaleType : String) (addFill : Bool) : Except PyErr CDFWriter :=
  let w := addVariableAttribute w "FIELDNAM" variable_name (.str short_description)
  let w := addVariableAttribute w "VALIDMIN" variable_name validmin
  let w := addVariableAttribute w "VALIDMAX" variable_name validmax
  let w := addVariableAttribute w "LABLAXIS" variable_name (.str lablaxis)
  let filled : Except PyErr CDFWriter :=
    if addFill then
      match dataType with
      | some .CDF_DOUBLE =>
          .ok (addVariableAttribute w "FILLVAL" variable_name (.float (10 ^ 31)))
      | some .CDF_FLOAT =>
          .ok (addVariableAttribute w "FILLVAL" variable_name (.float (10 ^ 31)))
      | some .CDF_UINT1 =>
          .ok (addVariableAttribute w "FILLVAL" variable_name (.int 255))
      | some .CDF_UINT2 =>
          .ok (addVariableAttribute w "FILLVAL" variable_name (.int 65535))
      | some .CDF_INT4 =>
          .ok (addVariableAttribute w "FILLVAL" variable_name (.int 1))
      | some .CDF_UINT4 =>
          .ok (addVariableAttribute w "FILLVAL" variable_name (.int (-1)))
      | _ => .error .processAbort
    else .ok w
  filled.map fun w =>
    let w := addVariableAttribute w "SCALETYP" variable_name (.str scaleType)
    let w := addVariableAttribute w "UNITS" variable_name (.str units_string)
    let w := addVariableAttribute w "FORMAT" variable_name (.str format_string)
    let w := addVariableAttribute w "CATDESC" variable_name (.str long_description)
    let w := addVariableAttribute w "VAR_TYPE" variable_name (.str "data")
    let w := addVariableAttribute w "DISPLAY_TYPE" variable_name (.str display_type)
    let w := addVariableAttribute w "SI_CONVERSION" variable_name (.str " > ")
    let w := addVariableAttribute w "DEPEND_0" variable_name (.str "Epoch")
    addVariableAttribute w "COORDINATE_SYSTEM" variable_name (.str "BCS")

/-! ## Dictionary and attribute lemmas -/

theorem getKey_setKey_self {α : Type} (l : List (String × α)) (k : String) (v : α) :
    getKey (setKey l k v) k = some v := by
  induction l with
  | nil => simp [setKey, getKey]
  | cons p rest ih =>
      obtain ⟨k', v'⟩ := p
      by_cases h : k' = k
      · simp [setKey, getKey, h]
      · simp [setKey, getKey, h, ih]

theorem getKey_setKey_ne {α : Type} (l : List (String × α)) (k k' : String) (v : α)
    (h : k' ≠ k) : getKey (setKey l k v) k' = getKey l k' := by
  induction l with
  | nil => simp [setKey, getKey, Ne.symm h]
  | cons p rest ih =>
      obtain ⟨k₀, v₀⟩ := p
      by_cases h0 : k₀ = k
      · subst h0
        simp [setKey, getKey, Ne.symm h]
      · simp only [setKey, if_neg h0]
        by_cases h1 : k₀ = k'
        · simp [getKey, h1]
        · simp [getKey, h1, ih]

theorem varAttr_add_self (w : CDFWriter) (a n : String) (v : PyVal) :
    varAttr (addVariableAttribute w a n v) n a = some v := by
  simp [varAttr, addVariableAttribute, getKey_setKey_self]

theorem varAttr_add_ne_attr (w : CDFWriter) (a a' n : String) (v : PyVal)
    (h : a' ≠ a) :
    varAttr (addVariableAttribute w a n v) n a' = varAttr w n a' := by
  simp only [varAttr, addVariableAttribute, getKey_setKey_self, Option.some_bind]
  rw [getKey_setKey_ne _ _ _ _ h]
  cases hg : getKey w.variable_attrs n with
  | none => simp [hg, Option.getD, getKey]
  | some m => simp [hg, Option.getD]

theorem getKey_addGlobal_self (w : CDFWriter) (n : String) (v : PyVal) :
    getKey (addGlobalAttribute w n v).global_attrs n = some v := by
  simp [addGlobalAttribute, getKey_setKey_self]

theorem getKey_addGlobal_ne (w : CDFWriter) (n n' : String) (v : PyVal)
    (h : n' ≠ n) :
    getKey (addGlobalAttribute w n v).global_attrs n' = getKey w.global_attrs n' := by
  simp [addGlobalAttribute, getKey_setKey_ne _ _ _ _ h]

/-! ## Facts about the seal tail -/

theorem closeRest_outcome_ok (w : CDFWriter) (fs : List String) (nf f : String)
    (h : (closeRest w fs nf).outcome = .ok f) : f = nf := by
  unfold closeRest at h
  by_cases hp : w.outputDirectory ++ nf ∈ fs
  · simp [hp] at h
  · by_cases hd : w.data.isEmpty
    · simp [hp, hd] at h
      exact h.symm
    · simp [hp, hd] at h
      exact h.symm

theorem closeRest_st_global_attrs (w : CDFWriter) (fs : List String) (nf : String) :
    (closeRest w fs nf).st.global_attrs = w.global_attrs := by
  unfold closeRest
  by_cases hp : w.outputDirectory ++ nf ∈ fs
  · simp [hp]
  · by_cases hd : w.data.isEmpty
    · simp [hp, hd]
    · simp [hp, hd]

theorem close_some_eq (w : CDFWriter) (fs : List String) (today : String)
    (t : PyDateTime) (ht : w.firstTime = some (.time t)) :
    close w fs today =
      closeRest (addGlobalAttribute (addGlobalAttribute (addGlobalAttribute
          (addGlobalAttribute w "Generation_date" (PyVal.str today))
          "Data_version" (PyVal.str ("v" ++ w.version)))
          "Logical_source" (PyVal.str w.prefixStr))
          "Logical_file_id" (PyVal.str (w.prefixStr ++ "_" ++ strftimeYmdHM00 t)))
        fs (w.prefixStr ++ "_" ++ strftimeYmdHM00 t ++ "_v" ++ w.version ++ ".cdf") := by
  simp [close, addGlobalAttribute, ht]

theorem close_none_eq (w : CDFWriter) (fs : List String) (today : String)
    (ht : w.firstTime = Option.none) :
    close w fs today =
      closeRest (addGlobalAttribute (addGlobalAttribute
          (addGlobalAttribute w "Generation_date" (PyVal.str today))
          "Data_version" (PyVal.str ("v" ++ w.version)))
          "Logical_source" (PyVal.str w.prefixStr))
        fs (w.prefixStr ++ "_v" ++ w.version ++ ".cdf") := by
  simp [close, addGlobalAttribute, ht]

/-- C1: for every successful seal where a first timestamp was recorded, the
permanent filename is `prefix + "_" + firstTimestamp(YYYYMMDDHHMM) + "00_v" +
version + ".cdf"` and the global attribute `Logical_file_id` is recorded as
`prefix + "_" + the same YYYYMMDDHHMM00 stem`; for every successful seal with
no first timestamp, the filename is `prefix + "_v" + version + ".cdf"` and no
`Logical_file_id` is added (the attribute entry is exactly what it was
before the seal). -/
theorem close_filename_spec (w : CDFWriter) (fs : List String)
    (today fname : String) :
    (∀ t : PyDateTime, w.firstTime = some (.time t) →
        (close w fs today).outcome = .ok fname →
        fname = w.prefixStr ++ "_" ++ strftimeYmdHM00 t ++ "_v" ++ w.version ++ ".cdf"
          ∧ getKey (close w fs today).st.global_attrs "Logical_file_id"
              = some (.str (w.prefixStr ++ "_" ++ strftimeYmdHM00 t)))
    ∧ (w.firstTime = Option.none →
        (close w fs today).outcome = .ok fname →
        fname = w.prefixStr ++ "_v" ++ w.version ++ ".cdf"
          ∧ getKey (close w fs today).st.global_attrs "Logical_file_id"
              = getKey w.global_attrs "Logical_file_id") := by
  constructor
  · intro t ht hok
    rw [close_some_eq w fs today t ht] at hok ⊢
    refine ⟨closeRest_outcome_ok _ _ _ _ hok, ?_⟩
    rw [closeRest_st_global_attrs]
    exact getKey_addGlobal_self _ _ _
  · intro ht hok
    rw [close_none_eq w fs today ht] at hok ⊢
    refine ⟨closeRest_outcome_ok _ _ _ _ hok, ?_⟩
    rw [closeRest_st_global_attrs]
    rw [getKey_addGlobal_ne _ _ _ _ (by decide), getKey_addGlobal_ne _ _ _ _ (by decide),
      getKey_addGlobal_ne _ _ _ _ (by decide)]

/-- A session mid-file: first timestamp 2024-01-01T00:00:00 recorded and one
Epoch record buffered. -/
def c1State : CDFWriter :=
  { CDFWriter.init "probeA" "./out" 7 9 with
      firstTime := some (.time ⟨2024, 1, 1, 0, 0, 0⟩),
      lastTime := some (.time ⟨2024, 1, 1, 0, 0, 0⟩),
      data := [("Epoch", PyVal.list [PyVal.time ⟨2024, 1, 1, 0, 0, 0⟩])] }

/-- A freshly initialized session: no timestamp ever recorded. -/
def c1StateNoTime : CDFWriter := CDFWriter.init "probeA" "./out" 7 9

theorem close_filename_spec_witness :
    ("probeA_20240101000000_v0.0.0.cdf"
        = c1State.prefixStr ++ "_" ++ strftimeYmdHM00 ⟨2024, 1, 1, 0, 0, 0⟩
            ++ "_v" ++ c1State.version ++ ".cdf"
      ∧ getKey (close c1State ["./out/__tmp7_9.cdf"] "20251012").st.global_attrs
            "Logical_file_id"
          = some (PyVal.str (c1State.prefixStr ++ "_"
              ++ strftimeYmdHM00 ⟨2024, 1, 1, 0, 0, 0⟩)))
    ∧ ("probeA_v0.0.0.cdf"
        = c1StateNoTime.prefixStr ++ "_v" ++ c1StateNoTime.version ++ ".cdf"
      ∧ getKey (close c1StateNoTime ["./out/__tmp7_9.cdf"] "20251012").st.global_attrs
            "Logical_file_id"
          = getKey c1StateNoTime.global_attrs "Logical_file_id") :=
  ⟨(close_filename_spec c1State ["./out/__tmp7_9.cdf"] "20251012" _).1
      ⟨2024, 1, 1, 0, 0, 0⟩ rfl (by rfl),
   (close_filename_spec c1StateNoTime ["./out/__tmp7_9.cdf"] "20251012" _).2 rfl (by rfl)⟩

/-- The permanent filename `close` would compute for the current state
(`none` when `_firstTime` holds a non-datetime value, where `strftime` would
raise before a name is formed). -/
def permanentName (w : CDFWriter) : Option String :=
  match w.firstTime with
  | some (.time t) =>
      some (w.prefixStr ++ "_" ++ strftimeYmdHM00 t ++ "_v" ++ w.version ++ ".cdf")
  | Option.none => some (w.prefixStr ++ "_v" ++ w.version ++ ".cdf")
  | some _ => Option.none

/-- A successful `close` is `closeRest` applied to the attribute-augmented
state, which agrees with the starting state on every field the seal tail
inspects. -/
theorem close_ok_exists_chain (w : CDFWriter) (fs : List String)
    (today fname : String) (hok : (close w fs today).outcome = .ok fname) :
    ∃ wa : CDFWriter, close w fs today = closeRest wa fs fname
      ∧ wa.data = w.data ∧ wa.outputDirectory = w.outputDirectory
      ∧ wa.cdf_temp_name = w.cdf_temp_name
      ∧ wa.last_cdf_filename = w.last_cdf_filename
      ∧ wa.constantData = w.constantData := by
  cases hft : w.firstTime with
  | none =>
      rw [close_none_eq w fs today hft] at hok ⊢
      obtain rfl := closeRest_outcome_ok _ _ _ _ hok
      exact ⟨_, rfl, by simp [addGlobalAttribute], by simp [addGlobalAttribute],
        by simp [addGlobalAttribute], by simp [addGlobalAttribute],
        by simp [addGlobalAttribute]⟩
  | some v =>
      cases v with
      | time t =>
          rw [close_some_eq w fs today t hft] at hok ⊢
          obtain rfl := closeRest_outcome_ok _ _ _ _ hok
          exact ⟨_, rfl, by simp [addGlobalAttribute], by simp [addGlobalAttribute],
            by simp [addGlobalAttribute], by simp [addGlobalAttribute],
            by simp [addGlobalAttribute]⟩
      | str s => simp [close, addGlobalAttribute, hft] at hok
      | int n => simp [close, addGlobalAttribute, hft] at hok
      | float q => simp [close, addGlobalAttribute, hft] at hok
      | list l => simp [close, addGlobalAttribute, hft] at hok
      | pyNone => simp [close, addGlobalAttribute, hft] at hok

theorem closeRest_empty (w : CDFWriter) (fs : List String) (nf : String)
    (hd : w.data = []) (hnp : w.outputDirectory ++ nf ∉ fs) :
    closeRest w fs nf =
      { st := { w with data := [], firstTime := Option.none, lastTime := Option.none },
        fs := fs.erase w.cdf_temp_name, invokedPipeline := false,
        outcome := .ok nf } := by
  have hnp' : w.outputDirectory ++ nf ∉ fs.erase w.cdf_temp_name :=
    fun h => hnp (List.mem_of_mem_erase h)
  unfold closeRest
  rw [if_neg hnp]
  simp only [hd, List.isEmpty_nil, if_true]
  rw [List.erase_append_right _ hnp']
  simp

theorem closeRest_nonempty (w : CDFWriter) (fs : List String) (nf : String)
    (hd : w.data ≠ []) (hnp : w.outputDirectory ++ nf ∉ fs) :
    closeRest w fs nf =
      { st :=
          { w with last_cdf_filename := some nf, data := [],
                   firstTime := Option.none, lastTime := Option.none },
        fs := (fs.erase w.cdf_temp_name) ++ [w.outputDirectory ++ nf],
        invokedPipeline := true, outcome := .ok nf } := by
  unfold closeRest
  rw [if_neg hnp]
  have hde : w.data.isEmpty = false := by
    cases hdl : w.data with
    | nil => exact absurd hdl hd
    | cons a l => simp
  simp [hde]

/-- C4: a successful seal with zero buffered data does not invoke the Write
Pipeline, leaves no output file behind (the only filesystem change is that
the temporary artifact is gone, and in particular the permanent path does
not exist afterwards), and leaves `lastSealedFilename` exactly as it was —
in particular still unset when it was unset. -/
theorem close_empty_no_output (w : CDFWriter) (fs : List String)
    (today fname : String) (hd : w.data = [])
    (hok : (close w fs today).outcome = .ok fname) :
    (close w fs today).invokedPipeline = false
    ∧ (close w fs today).fs = fs.erase w.cdf_temp_name
    ∧ w.outputDirectory ++ fname ∉ (close w fs today).fs
    ∧ (close w fs today).st.last_cdf_filename = w.last_cdf_filename := by
  obtain ⟨wa, heq, hdata, hdir, htemp, hlast, _⟩ :=
    close_ok_exists_chain w fs today fname hok
  rw [heq] at hok ⊢
  have hda : wa.data = [] := hdata.trans hd
  by_cases hp : wa.outputDirectory ++ fname ∈ fs
  · unfold closeRest at hok
    rw [if_pos hp] at hok
    simp at hok
  · rw [closeRest_empty wa fs fname hda hp]
    rw [hdir] at hp
    refine ⟨rfl, by rw [htemp], ?_, by simpa using hlast⟩
    rw [htemp]
    exact fun h => hp (List.mem_of_mem_erase h)

/-- The empty-data seal of C4 at a concrete session. -/
def c4State : CDFWriter := CDFWriter.init "probeA" "./out" 7 9

theorem close_empty_no_output_witness :
    (close c4State ["./out/__tmp7_9.cdf"] "20251012").invokedPipeline = false
    ∧ (close c4State ["./out/__tmp7_9.cdf"] "20251012").fs
        = ["./out/__tmp7_9.cdf"].erase c4State.cdf_temp_name
    ∧ c4State.outputDirectory ++ "probeA_v0.0.0.cdf"
        ∉ (close c4State ["./out/__tmp7_9.cdf"] "20251012").fs
    ∧ (close c4State ["./out/__tmp7_9.cdf"] "20251012").st.last_cdf_filename
        = c4State.last_cdf_filename :=
  close_empty_no_output c4State ["./out/__tmp7_9.cdf"] "20251012"
    "probeA_v0.0.0.cdf" rfl (by rfl)

/-- C5: sealing while a file already exists at the computed permanent path
fails with the `AlreadyExists` error (`RuntimeError` in the source), changes
nothing on the filesystem (in particular the temporary resource is still at
its temporary path), and keeps the temporary name in the session state. -/
theorem close_already_exists (w : CDFWriter) (fs : List String)
    (today p : String) (hp : permanentName w = some p)
    (hex : w.outputDirectory ++ p ∈ fs) :
    (close w fs today).outcome = .error .runtimeError
    ∧ (close w fs today).fs = fs
    ∧ (close w fs today).st.cdf_temp_name = w.cdf_temp_name := by
  cases hft : w.firstTime with
  | none =>
      unfold permanentName at hp
      rw [hft] at hp
      simp only [Option.some.injEq] at hp
      subst hp
      rw [close_none_eq w fs today hft]
      unfold closeRest
      rw [if_pos (by simpa [addGlobalAttribute] using hex)]
      exact ⟨rfl, rfl, by simp [addGlobalAttribute]⟩
  | some v =>
      cases v with
      | time t =>
          unfold permanentName at hp
          rw [hft] at hp
          simp only [Option.some.injEq] at hp
          subst hp
          rw [close_some_eq w fs today t hft]
          unfold closeRest
          rw [if_pos (by simpa [addGlobalAttribute] using hex)]
          exact ⟨rfl, rfl, by simp [addGlobalAttribute]⟩
      | str s => simp [permanentName, hft] at hp
      | int n => simp [permanentName, hft] at hp
      | float q => simp [permanentName, hft] at hp
      | list l => simp [permanentName, hft] at hp
      | pyNone => simp [permanentName, hft] at hp

/-- The clashing seal of C5 at a concrete session: the permanent path is
already on disk. -/
def c5State : CDFWriter :=
  { CDFWriter.init "probeA" "./out" 7 9 with data := [("x", PyVal.int 1)] }

/-- The filesystem for the C5 witness: the temporary file plus a pre-existing
file at the permanent path. -/
def c5fs : List String := ["./out/__tmp7_9.cdf", "./out/probeA_v0.0.0.cdf"]

theorem close_already_exists_witness :
    (close c5State c5fs "20251012").outcome = .error .runtimeError
    ∧ (close c5State c5fs "20251012").fs = c5fs
    ∧ (close c5State c5fs "20251012").st.cdf_temp_name = c5State.cdf_temp_name :=
  close_already_exists c5State c5fs "20251012" "probeA_v0.0.0.cdf" rfl
    (by decide)

/-- A session with a declared constant `K` whose datum 42 is buffered, plus
buffered variable data, about to be sealed. -/
def c6State : CDFWriter :=
  { CDFWriter.init "probeA" "./out" 7 9 with
      constants := [{ name := "K", dataType := .CDF_INT4, sizes := [] }],
      constantData := [("K", [PyVal.int 42])],
      data := [("x", PyVal.int 1)] }

/-- Refutation of C6 as stated: after this successful seal, the record
buffer is NOT empty for every declared name — the declared constant `K`
still holds its buffered datum (`close` resets `_data` but never touches
`_constantData`). -/
theorem close_constant_buffer_counterexample :
    (close c6State ["./out/__tmp7_9.cdf"] "20251012").outcome
        = .ok "probeA_v0.0.0.cdf"
    ∧ getKey (close c6State ["./out/__tmp7_9.cdf"] "20251012").st.constantData "K"
        = some [PyVal.int 42] :=
  ⟨by rfl, by rfl⟩

/-- C6 amended: after every successful seal with buffered variable data, the
variable record buffer is reset to empty and the time span is reset to
empty, `lastSealedFilename` is set to the permanent filename just produced —
but the constant-data buffer is left exactly as it was (constants are not
cleared). -/
theorem close_success_resets (w : CDFWriter) (fs : List String)
    (today fname : String) (hd : w.data ≠ [])
    (hok : (close w fs today).outcome = .ok fname) :
    (close w fs today).st.data = []
    ∧ (close w fs today).st.firstTime = Option.none
    ∧ (close w fs today).st.lastTime = Option.none
    ∧ (close w fs today).st.constantData = w.constantData
    ∧ (close w fs today).st.last_cdf_filename = some fname := by
  obtain ⟨wa, heq, hdata, hdir, htemp, hlast, hcd⟩ :=
    close_ok_exists_chain w fs today fname hok
  rw [heq] at hok ⊢
  by_cases hp : wa.outputDirectory ++ fname ∈ fs
  · unfold closeRest at hok
    rw [if_pos hp] at hok
    simp at hok
  · have hda : wa.data ≠ [] := by rw [hdata]; exact hd
    rw [closeRest_nonempty wa fs fname hda hp]
    exact ⟨rfl, rfl, rfl, hcd, rfl⟩

theorem close_success_resets_witness :
    (close c6State ["./out/__tmp7_9.cdf"] "20251012").st.data = []
    ∧ (close c6State ["./out/__tmp7_9.cdf"] "20251012").st.firstTime = Option.none
    ∧ (close c6State ["./out/__tmp7_9.cdf"] "20251012").st.lastTime = Option.none
    ∧ (close c6State ["./out/__tmp7_9.cdf"] "20251012").st.constantData
        = c6State.constantData
    ∧ (close c6State ["./out/__tmp7_9.cdf"] "20251012").st.last_cdf_filename
        = some "probeA_v0.0.0.cdf" :=
  close_success_resets c6State ["./out/__tmp7_9.cdf"] "20251012"
    "probeA_v0.0.0.cdf" (List.cons_ne_nil _ _) (by rfl)

/-- C3: the boundary check is a no-op (state, filesystem and outcome all
unchanged, no seal) when splitting is disabled; when splitting is enabled
and a time span is recorded, it triggers exactly one seal-and-reopen if and
only if `lastTimestamp - firstTimestamp ≥ splitThreshold` (and none
otherwise). -/
theorem closeRecord_boundary (w : CDFWriter) (fs : List String) (today : String)
    (pid rand : Nat) :
    (w.doNotSplit = true →
        closeRecord w fs today pid rand
          = { st := w, fs := fs, seals := 0, outcome := .ok () })
    ∧ (w.doNotSplit = false →
        ∀ a b : PyDateTime, w.lastTime = some (.time a) →
          w.firstTime = some (.time b) →
          ((closeRecord w fs today pid rand).seals = 1 ↔ dtSub a b ≥ w.boundary)
          ∧ ((closeRecord w fs today pid rand).seals = 0
              ↔ dtSub a b < w.boundary)) := by
  constructor
  · intro h
    simp [closeRecord, h]
  · intro h a b hla hfb
    unfold closeRecord
    rw [if_neg (by simp [h])]
    unfold spanAtLeast
    rw [hla, hfb]
    by_cases hge : dtSub a b ≥ w.boundary
    · simp only [decide_eq_true hge]
      constructor
      · simp [hge]
      · constructor
        · intro h0
          simp at h0
        · intro hlt
          omega
    · simp only [decide_eq_false hge]
      constructor
      · constructor
        · intro h1
          simp at h1
        · intro hge2
          exact absurd hge2 hge
      · simp
        omega

/-- Splitting enabled with a recorded span of exactly 6 hours. -/
def c3StateA : CDFWriter :=
  { CDFWriter.init "probeA" "./out" 7 9 with
      doNotSplit := false,
      firstTime := some (.time ⟨2024, 1, 1, 0, 0, 0⟩),
      lastTime := some (.time ⟨2024, 1, 1, 6, 0, 0⟩),
      data := [("Epoch", PyVal.list [PyVal.time ⟨2024, 1, 1, 0, 0, 0⟩,
        PyVal.time ⟨2024, 1, 1, 6, 0, 0⟩])] }

/-- Splitting enabled with a recorded span of 5 hours 59 minutes. -/
def c3StateB : CDFWriter :=
  { c3StateA with lastTime := some (.time ⟨2024, 1, 1, 5, 59, 0⟩) }

/-- Splitting disabled. -/
def c3StateC : CDFWriter :=
  { c3StateA with doNotSplit := true }

theorem closeRecord_boundary_witness :
    (closeRecord c3StateA ["./out/__tmp7_9.cdf"] "20251012" 7 10).seals = 1
    ∧ (closeRecord c3StateB ["./out/__tmp7_9.cdf"] "20251012" 7 10).seals = 0
    ∧ closeRecord c3StateC ["./out/__tmp7_9.cdf"] "20251012" 7 10
        = { st := c3StateC, fs := ["./out/__tmp7_9.cdf"], seals := 0,
            outcome := .ok () } :=
  ⟨((closeRecord_boundary c3StateA ["./out/__tmp7_9.cdf"] "20251012" 7 10).2 rfl
      ⟨2024, 1, 1, 6, 0, 0⟩ ⟨2024, 1, 1, 0, 0, 0⟩ rfl rfl).1.mpr (by decide),
   ((closeRecord_boundary c3StateB ["./out/__tmp7_9.cdf"] "20251012" 7 10).2 rfl
      ⟨2024, 1, 1, 5, 59, 0⟩ ⟨2024, 1, 1, 0, 0, 0⟩ rfl rfl).2.mpr (by decide),
   (closeRecord_boundary c3StateC ["./out/__tmp7_9.cdf"] "20251012" 7 10).1 rfl⟩

/-- C10: with splitting enabled but no data ever appended to the time
variable (both ends of the span still unset), the boundary check does not
behave as a no-op: the unconditional subtraction of the unset timestamps
raises `TypeError`. -/
theorem closeRecord_unset_span_raises (w : CDFWriter) (fs : List String)
    (today : String) (pid rand : Nat) (h1 : w.doNotSplit = false)
    (h2 : w.firstTime = Option.none) (h3 : w.lastTime = Option.none) :
    closeRecord w fs today pid rand
      = { st := w, fs := fs, seals := 0, outcome := .error .typeError } := by
  unfold closeRecord
  rw [if_neg (by simp [h1])]
  unfold spanAtLeast
  rw [h2, h3]

/-- A fresh session with splitting switched on and no appends yet. -/
def c10State : CDFWriter :=
  { CDFWriter.init "probeA" "./out" 7 9 with doNotSplit := false }

theorem closeRecord_unset_span_raises_witness :
    closeRecord c10State ["./out/__tmp7_9.cdf"] "20251012" 7 10
      = { st := c10State, fs := ["./out/__tmp7_9.cdf"], seals := 0,
          outcome := .error .typeError } :=
  closeRecord_unset_span_raises c10State ["./out/__tmp7_9.cdf"] "20251012" 7 10
    rfl rfl rfl

/-- C7 (code bug): for the malformed version string `"1.2.x"` — three
dot-separated components, one not composed of decimal digits —
`setVersionNumber` raises `TypeError`, although its own docstring promises
`ValueError` (the spec's `FormatError`) for any string not in `n.n.n`
format; `TypeError` is the kind the spec reserves for wrongly-typed
arguments. -/
theorem setVersionNumber_nondigit_raises_typeerror :
    setVersionNumber (CDFWriter.init "probeA" "./out" 7 9) "1.2.x"
        = .error PyErr.typeError
    ∧ PyErr.typeError ≠ PyErr.valueError :=
  ⟨by rfl, by decide⟩

/-- The fill-value table exactly as the claim states it: 64-bit float and
32-bit float map to 1.0e31, unsigned 8-bit to 255, unsigned 16-bit to 65535,
signed 32-bit to 1, unsigned 32-bit to -1; every other element type
(including an unspecified one) has no fill value. -/
def specFillval : Option CDFType → Option PyVal
  | some .CDF_DOUBLE => some (.float (10 ^ 31))
  | some .CDF_FLOAT => some (.float (10 ^ 31))
  | some .CDF_UINT1 => some (.int 255)
  | some .CDF_UINT2 => some (.int 65535)
  | some .CDF_INT4 => some (.int 1)
  | some .CDF_UINT4 => some (.int (-1))
  | _ => Option.none

theorem varAttr_fillval_tail (w : CDFWriter) (vn sc un fm ld dt : String) :
    varAttr (addVariableAttribute (addVariableAttribute (addVariableAttribute
      (addVariableAttribute (addVariableAttribute (addVariableAttribute
      (addVariableAttribute (addVariableAttribute (addVariableAttribute w
        "SCALETYP" vn (.str sc)) "UNITS" vn (.str un)) "FORMAT" vn (.str fm))
        "CATDESC" vn (.str ld)) "VAR_TYPE" vn (.str "data"))
        "DISPLAY_TYPE" vn (.str dt)) "SI_CONVERSION" vn (.str " > "))
        "DEPEND_0" vn (.str "Epoch")) "COORDINATE_SYSTEM" vn (.str "BCS"))
      vn "FILLVAL"
      = varAttr w vn "FILLVAL" := by
  rw [varAttr_add_ne_attr _ _ _ _ _ (by decide),
    varAttr_add_ne_attr _ _ _ _ _ (by decide),
    varAttr_add_ne_attr _ _ _ _ _ (by decide),
    varAttr_add_ne_attr _ _ _ _ _ (by decide),
    varAttr_add_ne_attr _ _ _ _ _ (by decide),
    varAttr_add_ne_attr _ _ _ _ _ (by decide),
    varAttr_add_ne_attr _ _ _ _ _ (by decide),
    varAttr_add_ne_attr _ _ _ _ _ (by decide),
    varAttr_add_ne_attr _ _ _ _ _ (by decide)]

/-- C8: with fill-value generation requested, the plot-variable attribute
builder records FILLVAL according to the fixed type table (`specFillval`),
and for every declared element type outside the table it aborts the process
(`os.abort`) without producing a state — in particular without writing any
FILLVAL. -/
theorem addPlot_fillval_table (w : CDFWriter)
    (vn sd ld dt un fm la : String) (dtype : Option CDFType)
    (vmin vmax : PyVal) (sc : String) :
    (∀ v : PyVal, specFillval dtype = some v →
        ∃ w' : CDFWriter,
          addPlotVariableAttributes w vn sd ld dt un fm la dtype vmin vmax sc true
              = .ok w'
            ∧ varAttr w' vn "FILLVAL" = some v)
    ∧ (specFillval dtype = Option.none →
        addPlotVariableAttributes w vn sd ld dt un fm la dtype vmin vmax sc true
          = .error .processAbort) := by
  constructor
  · intro v hv
    match dtype with
    | Option.none => simp [specFillval] at hv
    | some ct =>
        cases ct <;> first
          | (simp only [specFillval, Option.some.injEq] at hv
             subst hv
             exact ⟨_, rfl, by
               simp only [varAttr_fillval_tail]
               exact varAttr_add_self _ _ _ _⟩)
          | exact absurd hv (by simp [specFillval])
  · intro hn
    match dtype with
    | Option.none => rfl
    | some ct =>
        cases ct <;> first
          | rfl
          | simp [specFillval] at hn

theorem addPlot_fillval_table_witness :
    (∃ w' : CDFWriter,
        addPlotVariableAttributes (CDFWriter.init "probeA" "./out" 7 9)
            "Flux" "" "" "" "" "" "" (some .CDF_UINT2) PyVal.pyNone PyVal.pyNone
            "linear" true
          = .ok w'
        ∧ varAttr w' "Flux" "FILLVAL" = some (PyVal.int 65535))
    ∧ addPlotVariableAttributes (CDFWriter.init "probeA" "./out" 7 9)
          "Flux" "" "" "" "" "" "" (some .CDF_CHAR) PyVal.pyNone PyVal.pyNone
          "linear" true
        = .error .processAbort :=
  ⟨(addPlot_fillval_table (CDFWriter.init "probeA" "./out" 7 9)
      "Flux" "" "" "" "" "" "" (some .CDF_UINT2) PyVal.pyNone PyVal.pyNone
      "linear").1 (PyVal.int 65535) rfl,
   (addPlot_fillval_table (CDFWriter.init "probeA" "./out" 7 9)
      "Flux" "" "" "" "" "" "" (some .CDF_CHAR) PyVal.pyNone PyVal.pyNone
      "linear").2 rfl⟩

theorem varAttr_units_tail (w : CDFWriter) (vn sc un fm ld dt : String) :
    varAttr (addVariableAttribute (addVariableAttribute (addVariableAttribute
      (addVariableAttribute (addVariableAttribute (addVariableAttribute
      (addVariableAttribute (addVariableAttribute (addVariableAttribute w
        "SCALETYP" vn (.str sc)) "UNITS" vn (.str un)) "FORMAT" vn (.str fm))
        "CATDESC" vn (.str ld)) "VAR_TYPE" vn (.str "data"))
        "DISPLAY_TYPE" vn (.str dt)) "SI_CONVERSION" vn (.str " > "))
        "DEPEND_0" vn (.str "Epoch")) "COORDINATE_SYSTEM" vn (.str "BCS"))
      vn "UNITS"
      = some (PyVal.str un) := by
  rw [varAttr_add_ne_attr _ _ _ _ _ (by decide),
    varAttr_add_ne_attr _ _ _ _ _ (by decide),
    varAttr_add_ne_attr _ _ _ _ _ (by decide),
    varAttr_add_ne_attr _ _ _ _ _ (by decide),
    varAttr_add_ne_attr _ _ _ _ _ (by decide),
    varAttr_add_ne_attr _ _ _ _ _ (by decide),
    varAttr_add_ne_attr _ _ _ _ _ (by decide)]
  exact varAttr_add_self _ _ _ _

/-- Refutation of C9 as stated: calling the plot-variable builder with a
blank units argument records UNITS as the blank string, not as
`"unitless"` (only the support-variable builder normalizes a blank). -/
theorem addPlot_blank_units_counterexample :
    ((addPlotVariableAttributes (CDFWriter.init "probeA" "./out" 7 9)
          "Flux" "" "" "" "" "" "" Option.none PyVal.pyNone PyVal.pyNone
          "linear" false).map fun w' => varAttr w' "Flux" "UNITS")
        = .ok (some (PyVal.str ""))
    ∧ PyVal.str "" ≠ PyVal.str "unitless" :=
  ⟨by rfl, by simp⟩

/-- C9 amended: the support-variable builder normalizes a blank units
argument to the literal string "unitless"; the plot-variable builder records
the units argument verbatim, so an explicitly blank units argument yields a
blank UNITS attribute there (its `"unitless"` only arises as the default for
an omitted argument). -/
theorem units_blank_normalization (w : CDFWriter)
    (vn sd ld un fm la si sc : String) (vmin vmax : PyVal) :
    (varAttr (addSupportVariableAttributes w vn sd ld un fm vmin vmax la si sc)
        vn "UNITS"
        = some (.str (if un.length = 0 then "unitless" else un)))
    ∧ (∀ (dt fm2 la2 : String) (dtype : Option CDFType) (af : Bool)
        (w' : CDFWriter),
        addPlotVariableAttributes w vn sd ld dt un fm2 la2 dtype vmin vmax sc af
            = .ok w' →
        varAttr w' vn "UNITS" = some (.str un)) := by
  constructor
  · simp only [addSupportVariableAttributes]
    rw [varAttr_add_ne_attr _ _ _ _ _ (by decide),
      varAttr_add_ne_attr _ _ _ _ _ (by decide),
      varAttr_add_ne_attr _ _ _ _ _ (by decide),
      varAttr_add_ne_attr _ _ _ _ _ (by decide),
      varAttr_add_ne_attr _ _ _ _ _ (by decide),
      varAttr_add_ne_attr _ _ _ _ _ (by decide)]
    exact varAttr_add_self _ _ _ _
  · intro dt fm2 la2 dtype af w' hok
    simp only [addPlotVariableAttributes] at hok
    cases af with
    | false =>
        simp only [Bool.false_eq_true, if_false, Except.map] at hok
        injection hok with h
        subst h
        exact varAttr_units_tail _ vn sc un fm2 ld dt
    | true =>
        simp only [if_true] at hok
        match dtype with
        | Option.none => simp [Except.map] at hok
        | some ct =>
            cases ct <;> first
              | (simp only [Except.map] at hok
                 injection hok with h
                 subst h
                 exact varAttr_units_tail _ vn sc un fm2 ld dt)
              | simp [Except.map] at hok

/-- One append to the time variable: the arguments of one
`addVariableData("Epoch", data, all_values)` call. -/
structure EpochOp where
  data : PyVal
  all_values : Bool

/-- A sequence of appends to the time variable, raising as soon as one call
raises. -/
def applyEpochOps (w : CDFWriter) : List EpochOp → Except PyErr CDFWriter
  | [] => .ok w
  | op :: rest => do
      let w1 ← addVariableData w "Epoch" op.data op.all_values
      applyEpochOps w1 rest

/-- The timestamps carried by one append, in order. -/
def opTimes (op : EpochOp) : List PyVal := toTimes op.data

/-- All timestamps carried by a sequence of appends, in call order. -/
def allTimes (ops : List EpochOp) : List PyVal := (ops.map opTimes).flatten

theorem except_bind_ok {ε α β : Type} {x : Except ε α} {f : α → Except ε β}
    {b : β} (h : x >>= f = .ok b) : ∃ a, x = .ok a ∧ f a = .ok b := by
  cases x with
  | error e => simp [Bind.bind, Except.bind] at h
  | ok a => exact ⟨a, rfl, by simpa [Bind.bind, Except.bind] using h⟩

theorem epochUpdate_nil (w : CDFWriter) (d : PyVal) (hc : toTimes d = []) :
    epochUpdate w d = .error .indexError := by
  unfold epochUpdate
  rw [hc]
  cases hft : w.firstTime <;> simp

theorem epochUpdate_eq (w : CDFWriter) (d : PyVal) (x : PyVal) (xs : List PyVal)
    (hc : toTimes d = x :: xs) :
    epochUpdate w d = .ok { w with
      firstTime := (w.firstTime <|> some x),
      lastTime := (x :: xs).getLast? } := by
  unfold epochUpdate
  rw [hc]
  cases hl : (x :: xs).getLast? with
  | none =>
      rw [List.getLast?_eq_none_iff] at hl
      simp at hl
  | some tl =>
      cases hft : w.firstTime <;>
        simp [hft, hl, Option.orElse, List.head?]

theorem addVariableData_epoch_times (w : CDFWriter) (d : PyVal) (b : Bool)
    (w' : CDFWriter) (h : addVariableData w "Epoch" d b = .ok w') :
    toTimes d ≠ []
    ∧ w'.firstTime = (w.firstTime <|> (toTimes d).head?)
    ∧ w'.lastTime = (toTimes d).getLast? := by
  unfold addVariableData at h
  by_cases hcon : (w.variableList.map VarDecl.name).contains "Epoch" = true
  · rw [if_neg (not_not_intro hcon), if_pos rfl] at h
    obtain ⟨w1, h1, h2⟩ := except_bind_ok h
    cases hc : toTimes d with
    | nil =>
        rw [epochUpdate_nil w d hc] at h1
        exact absurd h1 (by simp)
    | cons x xs =>
        rw [epochUpdate_eq w d x xs hc] at h1
        injection h1 with h1
        subst h1
        refine ⟨by simp [hc], ?_⟩
        clear h
        beta_reduce at h2
        simp only [] at h2
        cases b with
        | true =>
            rw [if_pos rfl] at h2
            cases hg : getKey w.data "Epoch" with
            | some v => simp [hg] at h2
            | none =>
                simp only [hg] at h2
                injection h2 with h3
                subst h3
                exact ⟨by simp, by simp⟩
        | false =>
            rw [if_neg (by simp)] at h2
            cases hg : getKey w.data "Epoch" with
            | none =>
                simp only [hg] at h2
                injection h2 with h3
                subst h3
                exact ⟨by simp, by simp⟩
            | some v =>
                cases v with
                | list l =>
                    simp only [hg] at h2
                    injection h2 with h3
                    subst h3
                    exact ⟨by simp, by simp⟩
                | str s => simp [hg] at h2
                | int n => simp [hg] at h2
                | float q => simp [hg] at h2
                | time t => simp [hg] at h2
                | pyNone => simp [hg] at h2
  · rw [if_pos hcon] at h
    exact absurd h (by simp)

theorem applyEpochOps_span (ops : List EpochOp) : ∀ w w' : CDFWriter,
    applyEpochOps w ops = .ok w' →
    w'.firstTime = (w.firstTime <|> (allTimes ops).head?)
    ∧ w'.lastTime
        = (if (allTimes ops).isEmpty then w.lastTime
           else (allTimes ops).getLast?) := by
  induction ops with
  | nil =>
      intro w w' h
      simp only [applyEpochOps] at h
      injection h with h1
      subst h1
      simp [allTimes]
  | cons op rest ih =>
      intro w w' h
      simp only [applyEpochOps] at h
      obtain ⟨w1, h1, h2⟩ := except_bind_ok h
      obtain ⟨hne, hf1, hl1⟩ :=
        addVariableData_epoch_times w op.data op.all_values w1 h1
      obtain ⟨hf2, hl2⟩ := ih w1 w' h2
      obtain ⟨x, xs, hxx⟩ : ∃ x xs, toTimes op.data = x :: xs := by
        cases hcc : toTimes op.data with
        | nil => exact absurd hcc hne
        | cons x xs => exact ⟨x, xs, rfl⟩
      have hall : allTimes (op :: rest) = x :: (xs ++ allTimes rest) := by
        simp [allTimes, opTimes, hxx]
      constructor
      · rw [hf2, hf1, hall]
        rw [show (toTimes op.data).head? = some x from by rw [hxx]; rfl]
        cases w.firstTime <;> simp [Option.orElse]
      · rw [hl2, hall]
        simp only [List.isEmpty_cons, Bool.false_eq_true, if_false]
        by_cases hrest : allTimes rest = []
        · rw [if_pos (by simp [hrest]), hl1, hrest, List.append_nil, hxx]
        · rw [if_neg (by simp [List.isEmpty_eq_true, hrest]),
            ← List.cons_append, List.getLast?_append_of_ne_nil _ hrest]

/-- C2: for every sequence of successful data appends to the time variable
"Epoch" — incremental calls with scalar or sequence payloads, or a bulk
`all_values` call — carrying timestamps T1, ..., Tn in call order, afterwards
`firstTimestamp` equals T1 (the first element ever appended, set only while
unset) and `lastTimestamp` equals Tn (the last element of the most recent
append), regardless of which form was used. -/
theorem epoch_appends_track_span (w : CDFWriter) (ops : List EpochOp)
    (w' : CDFWriter) (h0 : w.firstTime = Option.none) (hne : ops ≠ [])
    (h : applyEpochOps w ops = .ok w') :
    allTimes ops ≠ []
    ∧ w'.firstTime = (allTimes ops).head?
    ∧ w'.lastTime = (allTimes ops).getLast? := by
  obtain ⟨hf, hl⟩ := applyEpochOps_span ops w w' h
  have hta : allTimes ops ≠ [] := by
    cases ops with
    | nil => exact absurd rfl hne
    | cons op rest =>
        simp only [applyEpochOps] at h
        obtain ⟨w1, h1, h2⟩ := except_bind_ok h
        obtain ⟨hne1, _, _⟩ :=
          addVariableData_epoch_times w op.data op.all_values w1 h1
        intro hnil
        rw [show allTimes (op :: rest) = opTimes op ++ allTimes rest from by
          simp [allTimes]] at hnil
        exact hne1 (List.append_eq_nil.mp hnil).1
  refine ⟨hta, ?_, ?_⟩
  · rw [hf, h0]
    cases (allTimes ops).head? <;> simp [Option.orElse]
  · rw [hl, if_neg (by simp [List.isEmpty_eq_true, hta])]

/-- A session with the time variable "Epoch" declared and nothing appended
yet. -/
def c2State : CDFWriter :=
  addVariable (CDFWriter.init "probeA" "./out" 7 9) "Epoch" .CDF_EPOCH
    Option.none Option.none true 1 0 5

/-- Two incremental appends: a scalar timestamp, then a sequence of two. -/
def c2Ops : List EpochOp :=
  [⟨PyVal.time ⟨2024, 1, 1, 0, 0, 0⟩, false⟩,
   ⟨PyVal.list [PyVal.time ⟨2024, 1, 1, 1, 0, 0⟩,
     PyVal.time ⟨2024, 1, 1, 2, 0, 0⟩], false⟩]

/-- The session state after the two appends of `c2Ops`. -/
def c2Final : CDFWriter :=
  { c2State with
      firstTime := some (.time ⟨2024, 1, 1, 0, 0, 0⟩),
      lastTime := some (.time ⟨2024, 1, 1, 2, 0, 0⟩),
      data := [("Epoch", PyVal.list [PyVal.time ⟨2024, 1, 1, 0, 0, 0⟩,
        PyVal.list [PyVal.time ⟨2024, 1, 1, 1, 0, 0⟩,
          PyVal.time ⟨2024, 1, 1, 2, 0, 0⟩]])] }

theorem epoch_appends_track_span_witness :
    applyEpochOps c2State c2Ops = .ok c2Final
    ∧ (allTimes c2Ops ≠ []
       ∧ c2Final.firstTime = (allTimes c2Ops).head?
       ∧ c2Final.lastTime = (allTimes c2Ops).getLast?) :=
  ⟨by rfl,
   epoch_appends_track_span c2State c2Ops c2Final rfl (by simp [c2Ops]) (by rfl)⟩

/-- The state produced by the plot-variable builder called with a blank units
argument (and no fill value), used to witness the amended C9. -/
def c9PlotResult : CDFWriter :=
  (addPlotVariableAttributes (CDFWriter.init "probeA" "./out" 7 9)
      "T" "" "" "" "" "" "" Option.none PyVal.pyNone PyVal.pyNone
      "linear" false).toOption.getD (CDFWriter.init "probeA" "./out" 7 9)

theorem units_blank_normalization_witness :
    varAttr (addSupportVariableAttributes (CDFWriter.init "probeA" "./out" 7 9)
        "T" "" "" "" "" PyVal.pyNone PyVal.pyNone " " " > " "linear") "T" "UNITS"
        = some (.str (if ("" : String).length = 0 then "unitless" else ""))
    ∧ varAttr c9PlotResult "T" "UNITS" = some (.str "") :=
  ⟨(units_blank_normalization (CDFWriter.init "probeA" "./out" 7 9)
      "T" "" "" "" "" " " " > " "linear" PyVal.pyNone PyVal.pyNone).1,
   (units_blank_normalization (CDFWriter.init "probeA" "./out" 7 9)
      "T" "" "" "" "" " " " > " "linear" PyVal.pyNone PyVal.pyNone).2
      "" "" "" Option.none false c9PlotResult (by rfl)⟩
